import Mathlib

/-!
Verification of the sudoku TUI repository.

The first half embeds `src/lib.rs`: the puzzle model (`SudokuValue`,
`SudokuCell`, `SudokuModel` with its `get`/`set`/`add`/`set_enabled`/`colour`
operations).  The second half embeds the layout engine of `src/ratatui.rs`
(`LayoutConfig`, the `ui` frame allocator, `Cell::get_border_set`,
`render_sudoku_grid` and `get_correction`).

Machine integers (`u8`, `u16`) are modelled as `Nat`/`Int` with explicit
wrap-arounds (`% 256`, `% 65536`) exactly where the Rust code can wrap.
Rust's in-place mutation of the nested `[[SudokuCell; 3]; 3]` arrays is
modelled by functional update of the nested index functions; the `HashSet<u8>`
values used by `colour` are modelled as `Finset ℕ`; the early `return
Colour::Red` inside the scanning loops is modelled by folding in the
`Except Colour` monad.
-/

namespace SudokuTUI

/-- One cell of the puzzle: `struct SudokuValue { value: u8, enabled: bool }`.
`value` is a `u8`, kept as a `Nat` (wrapping is applied explicitly where the
Rust code wraps). -/
structure SudokuValue where
  value : Nat
  enabled : Bool
deriving DecidableEq

/-- `impl Default for SudokuValue`: value 0, enabled. -/
def SudokuValue.default : SudokuValue := ⟨0, true⟩

/-- `const VALUES: [&str; 10]` from `lib.rs`. -/
def VALUES : List String := [" ", "1", "2", "3", "4", "5", "6", "7", "8", "9"]

/-- `SudokuValue::text`: `VALUES[self.value as usize]`.  The Rust index panics
out of range; the model returns `" "` there (the `value ≤ 9` invariant makes
the branch unreachable). -/
def SudokuValue.text (v : SudokuValue) : String := VALUES.getD v.value " "

/-- `struct SudokuCell { values: [[SudokuValue; 3]; 3] }`. -/
structure SudokuCell where
  values : Fin 3 → Fin 3 → SudokuValue

/-- `struct SudokuModel { cells: [[SudokuCell; 3]; 3] }`. -/
structure SudokuModel where
  cells : Fin 3 → Fin 3 → SudokuCell

/-- `Colour` from `lib.rs`. -/
inductive Colour where
  | Black
  | Red
  | Green
deriving DecidableEq

/-- `x / 3` landing in `Fin 3` (the `top_x = x / 3` computation). -/
def fdiv3 (x : Fin 9) : Fin 3 := ⟨x.val / 3, by omega⟩

/-- `x % 3` landing in `Fin 3` (the `cell_x = x % 3` computation). -/
def fmod3 (x : Fin 9) : Fin 3 := ⟨x.val % 3, by omega⟩

/-- `SudokuModel::default()`: every cell enabled with value 0. -/
def SudokuModel.default : SudokuModel := ⟨fun _ _ => ⟨fun _ _ => SudokuValue.default⟩⟩

/-- `SudokuModel::get`: `self.cells[x/3][y/3].values[x%3][y%3]`. -/
def SudokuModel.get (m : SudokuModel) (x y : Fin 9) : SudokuValue :=
  (m.cells (fdiv3 x) (fdiv3 y)).values (fmod3 x) (fmod3 y)

/-- Functional counterpart of writing through `SudokuModel::get_mut`:
replace the value stored at `(x, y)`, leaving every other entry alone. -/
def SudokuModel.update (m : SudokuModel) (x y : Fin 9) (v : SudokuValue) : SudokuModel :=
  ⟨fun a b =>
    if a = fdiv3 x ∧ b = fdiv3 y then
      ⟨fun i j =>
        if i = fmod3 x ∧ j = fmod3 y then v else (m.cells a b).values i j⟩
    else m.cells a b⟩

/-- `SudokuModel::set`: if the target is enabled, store
`if value == u8::MAX { 9 } else { value % 10 }`; otherwise leave the model
untouched. -/
def SudokuModel.set (m : SudokuModel) (x y : Fin 9) (value : Nat) : SudokuModel :=
  if (m.get x y).enabled then
    m.update x y { m.get x y with value := if value = 255 then 9 else value % 10 }
  else m

/-- `SudokuModel::set_enabled`. -/
def SudokuModel.set_enabled (m : SudokuModel) (x y : Fin 9) (e : Bool) : SudokuModel :=
  m.update x y { m.get x y with enabled := e }

/-- `u8::wrapping_add_signed` on a `u8` value and an `i8` delta. -/
def wrapping_add_signed (v : Nat) (d : Int) : Nat := (((v : Int) + d) % 256).toNat

/-- `SudokuModel::add`: `self.set(x, y, self.get(x, y).value.wrapping_add_signed(value))`. -/
def SudokuModel.add (m : SudokuModel) (x y : Fin 9) (value : Int) : SudokuModel :=
  m.set x y (wrapping_add_signed (m.get x y).value value)

/-- `impl From<[[u8; 9]; 9]> for SudokuModel`: start from the default model;
for every `(x, y)` with a non-zero entry, `set` it and disable it. -/
def SudokuModel.fromGrid (g : Fin 9 → Fin 9 → Nat) : SudokuModel :=
  (List.finRange 9).foldl
    (fun m x =>
      (List.finRange 9).foldl
        (fun m y => if g x y ≠ 0 then (m.set x y (g x y)).set_enabled x y false else m) m)
    SudokuModel.default

/-- The array literal inside `SudokuModel::example()`. -/
def exampleGrid : Fin 9 → Fin 9 → Nat :=
  ![![1, 6, 7, 8, 9, 2, 3, 4, 5],
    ![4, 2, 8, 0, 0, 0, 0, 0, 0],
    ![5, 9, 3, 0, 0, 0, 0, 0, 0],
    ![6, 0, 0, 4, 0, 0, 0, 0, 0],
    ![7, 0, 0, 0, 5, 0, 0, 0, 0],
    ![8, 0, 0, 0, 0, 6, 0, 0, 0],
    ![9, 0, 0, 0, 0, 0, 7, 0, 0],
    ![2, 0, 0, 0, 0, 0, 0, 8, 0],
    ![3, 0, 0, 0, 0, 0, 0, 0, 9]]

/-- `SudokuModel::example()`. -/
def exampleModel : SudokuModel := SudokuModel.fromGrid exampleGrid

/-! ### `SudokuModel::colour`

The three loops of `colour` each walk a line of cells carrying a
`HashSet<u8>` initialised to `{1..=9}`, erase every value they see, and
return `Colour::Red` early on a duplicate of the target value.  The early
return is modelled with `Except Colour`: `scanStep` erases first (as the Rust
code does) and then raises `Red` when its `hit` predicate fires. -/

/-- One iteration of a `colour` scanning loop: remove the value from the
candidate set, then early-return `Red` when `hit` fires. -/
def scanStep (val : α → Nat) (hit : α → Bool)
    (acc : Except Colour (Finset ℕ)) (a : α) : Except Colour (Finset ℕ) :=
  match acc with
  | .error c => .error c
  | .ok s =>
    let s' := s.erase (val a)
    if hit a then .error Colour.Red else .ok s'

/-- A whole `colour` scanning loop, starting from `{1..=9}`. -/
def scan (val : α → Nat) (hit : α → Bool) (l : List α) : Except Colour (Finset ℕ) :=
  l.foldl (scanStep val hit) (.ok (Finset.Icc 1 9))

/-- Iteration order of the block loop: `for lookup_x in 0..3 { for lookup_y in 0..3 }`. -/
def pairs3 : List (Fin 3 × Fin 3) :=
  (List.finRange 3).flatMap fun i => (List.finRange 3).map fun j => (i, j)

/-- Value seen by the block loop at offset `p` inside the 3×3 block of `(x,y)`:
`cell.values[lookup_x][lookup_y].value`. -/
def blockVal (m : SudokuModel) (x y : Fin 9) (p : Fin 3 × Fin 3) : Nat :=
  ((m.cells (fdiv3 x) (fdiv3 y)).values p.1 p.2).value

/-- Early-return condition of the block loop: not the target cell itself
(the `continue`), and the value equals the target. -/
def blockHit (m : SudokuModel) (x y : Fin 9) (p : Fin 3 × Fin 3) : Bool :=
  !decide (p.1 = fmod3 x ∧ p.2 = fmod3 y) && decide ((m.get x y).value = blockVal m x y p)

/-- Value seen by the row loop: `self.get(lookup_x, y).value`. -/
def rowVal (m : SudokuModel) (y : Fin 9) (i : Fin 9) : Nat := (m.get i y).value

/-- Early-return condition of the row loop: `x != lookup_x && target == value`. -/
def rowHit (m : SudokuModel) (x y : Fin 9) (i : Fin 9) : Bool :=
  decide (x ≠ i) && decide ((m.get x y).value = rowVal m y i)

/-- Value seen by the column loop: `self.get(x, lookup_y).value`. -/
def colVal (m : SudokuModel) (x : Fin 9) (j : Fin 9) : Nat := (m.get x j).value

/-- Early-return condition of the column loop: `y != lookup_y && target == value`. -/
def colHit (m : SudokuModel) (x y : Fin 9) (j : Fin 9) : Bool :=
  decide (y ≠ j) && decide ((m.get x y).value = colVal m x j)

/-- The block loop of `colour`. -/
def blockScan (m : SudokuModel) (x y : Fin 9) : Except Colour (Finset ℕ) :=
  scan (blockVal m x y) (blockHit m x y) pairs3

/-- The row loop of `colour`. -/
def rowScan (m : SudokuModel) (x y : Fin 9) : Except Colour (Finset ℕ) :=
  scan (rowVal m y) (rowHit m x y) (List.finRange 9)

/-- The column loop of `colour`. -/
def colScan (m : SudokuModel) (x y : Fin 9) : Except Colour (Finset ℕ) :=
  scan (colVal m x) (colHit m x y) (List.finRange 9)

/-- `SudokuModel::colour`.  When the target is 0 the three loops do not run,
so the final emptiness test is made on the untouched `{1..=9}` sets. -/
def SudokuModel.colour (m : SudokuModel) (x y : Fin 9) : Colour :=
  if (m.get x y).value ≠ 0 then
    match blockScan m x y with
    | .error c => c
    | .ok cellValues =>
      match rowScan m x y with
      | .error c => c
      | .ok rowValues =>
        match colScan m x y with
        | .error c => c
        | .ok colValues =>
          if cellValues = ∅ ∨ rowValues = ∅ ∨ colValues = ∅ then Colour.Green
          else Colour.Black
  else
    if (Finset.Icc 1 9 : Finset ℕ) = ∅ ∨ (Finset.Icc 1 9 : Finset ℕ) = ∅ ∨
        (Finset.Icc 1 9 : Finset ℕ) = ∅ then Colour.Green
    else Colour.Black

/-! ### `ratatui.rs`: the layout engine -/

/-- `struct LayoutConfig` from `ratatui.rs` (fields in source order). -/
structure LayoutConfig where
  cell_h : Nat
  cell_w : Nat
  outer_border : Bool
  cell_border : Bool
  cell_collapsed : Bool
  separators_visible : Bool
  separators_collapsed : Bool
deriving DecidableEq

/-- `LayoutConfig::from_size` — the mode classifier, a decision table on the
grid area's width and height (`u16` thresholds, never wrapping). -/
def LayoutConfig.from_size (width height : Nat) : LayoutConfig :=
  let cell_h : Nat := if height < 17 then 1 else 2
  let cell_w : Nat :=
    if width < 23 then 1 else if width < 32 then 2 else if width < 50 then 3 else 5
  let cell_border := decide (2 < cell_w) && decide (1 < cell_h)
  let cell_collapsed := decide (width < 39) || decide (height < 29)
  let separators_collapsed :=
    decide (height < 11) || decide (width < 11) ||
      (decide (16 < width) && decide (width < 21)) ||
      (decide (16 < height) && decide (height < 21))
  let separators_visible :=
    decide (10 < width) && decide (10 < height) &&
      !((decide (20 < width) && decide (width < 29)) ||
        (decide (20 < height) && decide (height < 29)))
  let outer_border :=
    (decide (18 < height) && decide (height < 29)) ||
      (decide (60 < width) && decide (30 < height))
  ⟨cell_h, cell_w, outer_border, cell_border, cell_collapsed, separators_visible,
    separators_collapsed⟩

/-- `LayoutConfig::grid_size`: the footprint along one axis for a given cell
size.  All subtractions stay non-negative (`9 * cell_size ≥ 9 > 7`), so `Nat`
subtraction coincides with the `u16` arithmetic of the source. -/
def LayoutConfig.grid_size (c : LayoutConfig) (cell_size : Nat) : Nat :=
  let result := 9 * cell_size
  let result :=
    if !c.cell_collapsed then result + 9
    else if c.cell_border then result - 7
    else result
  let result :=
    if c.outer_border then result + 1
    else if 1 < cell_size then result - 1
    else result
  let result :=
    if c.separators_visible && !c.separators_collapsed then result + 2 else result
  result

/-- `LayoutConfig::grid_width`. -/
def LayoutConfig.grid_width (c : LayoutConfig) : Nat := c.grid_size c.cell_w

/-- `LayoutConfig::grid_height`, including the seven hard overrides the source
uses to "fix sloppy coordinates math, that led to negative offset for some
sizes". -/
def LayoutConfig.grid_height (c : LayoutConfig) : Nat :=
  if c.cell_h = 2 ∧ c.outer_border ∧ c.cell_border ∧ ¬c.cell_collapsed ∧
      c.separators_visible ∧ ¬c.separators_collapsed then 29
  else if c.cell_h = 2 ∧ ¬c.outer_border ∧ c.cell_border ∧ ¬c.cell_collapsed ∧
      c.separators_visible ∧ ¬c.separators_collapsed then 27
  else if c.cell_h = 2 ∧ c.outer_border ∧ c.cell_border ∧ c.cell_collapsed ∧
      ¬c.separators_visible ∧ ¬c.separators_collapsed then 21
  else if c.cell_h = 2 ∧ c.outer_border ∧ c.cell_border ∧ c.cell_collapsed ∧
      c.separators_visible ∧ c.separators_collapsed then 19
  else if c.cell_h = 2 ∧ ¬c.outer_border ∧ c.cell_border ∧ c.cell_collapsed ∧
      c.separators_visible ∧ c.separators_collapsed then 17
  else if c.cell_h = 1 ∧ ¬c.outer_border ∧ ¬c.cell_border ∧ c.cell_collapsed ∧
      c.separators_visible ∧ ¬c.separators_collapsed then 9
  else if c.cell_h = 1 ∧ ¬c.outer_border ∧ ¬c.cell_border ∧ c.cell_collapsed ∧
      ¬c.separators_visible ∧ c.separators_collapsed then 9
  else c.grid_size c.cell_h

/-! ### The `ui` frame allocator -/

/-- `let show_instructions = size.height > 9;` in `fn ui`. -/
def show_instructions (height : Nat) : Bool := decide (9 < height)

/-- `let show_header = size.height > 12;` in `fn ui`. -/
def show_header (height : Nat) : Bool := decide (12 < height)

/-- `let header_borders = size.height > 14;` in `fn ui`. -/
def header_borders (height : Nat) : Bool := decide (14 < height)

/-- `let footer_borders = size.height > 16;` in `fn ui`. -/
def footer_borders (height : Nat) : Bool := decide (16 < height)

/-- Rows of the header band carved by `ui`: `Constraint::Length(3)` when the
header has borders, `Length(1)` without, and no band at all when hidden. -/
def headerRows (height : Nat) : Nat :=
  if show_header height then (if header_borders height then 3 else 1) else 0

/-- Rows of the footer (instructions) band carved by `ui`. -/
def footerRows (height : Nat) : Nat :=
  if show_instructions height then (if footer_borders height then 3 else 1) else 0

/-- Rows of the grid band: `Constraint::Min(0)` absorbs everything the fixed
`Length` bands do not take (ratatui `Layout::split` on
`[Length a, Min 0, Length b]` with `a + b ≤ height`). -/
def gridRows (height : Nat) : Nat := height - headerRows height - footerRows height

/-! ### Border glyphs -/

/-- `enum BorderStyle` from `ratatui.rs`. -/
inductive BorderStyle where
  | None
  | Plain
  | Double
deriving DecidableEq

/-- `enum State` from `ratatui.rs` (cell paint state). -/
inductive State where
  | Neutral
  | Good
  | Bad
deriving DecidableEq

/-- `ratatui::symbols::line::Set` (the box-drawing glyph table type). -/
structure LineSet where
  vertical : String
  horizontal : String
  top_right : String
  top_left : String
  bottom_right : String
  bottom_left : String
  vertical_left : String
  vertical_right : String
  horizontal_down : String
  horizontal_up : String
  cross : String
deriving DecidableEq

/-- `ratatui::symbols::line::NORMAL` (library constant used by the source). -/
def NORMAL : LineSet :=
  { vertical := "│", horizontal := "─", top_right := "┐", top_left := "┌",
    bottom_right := "┘", bottom_left := "└", vertical_left := "┤",
    vertical_right := "├", horizontal_down := "┬", horizontal_up := "┴",
    cross := "┼" }

/-- `ratatui::symbols::line::DOUBLE` (library constant used by the source). -/
def DOUBLE : LineSet :=
  { vertical := "║", horizontal := "═", top_right := "╗", top_left := "╔",
    bottom_right := "╝", bottom_left := "╚", vertical_left := "╣",
    vertical_right := "╠", horizontal_down := "╦", horizontal_up := "╩",
    cross := "╬" }

/-- `DOUBLE_SIDES_PLAIN` from `ratatui.rs`: double vertical strokes joined to
plain horizontal ones. -/
def DOUBLE_SIDES_PLAIN : LineSet :=
  { vertical := "║", horizontal := "─", top_right := "╖", top_left := "╓",
    bottom_right := "╜", bottom_left := "╙", vertical_left := "╢",
    vertical_right := "╟", horizontal_down := "╥", horizontal_up := "╨",
    cross := "╫" }

/-- `PLAIN_SIDES_DOUBLE` from `ratatui.rs`: plain vertical strokes joined to
double horizontal ones. -/
def PLAIN_SIDES_DOUBLE : LineSet :=
  { vertical := "│", horizontal := "═", top_right := "╕", top_left := "╒",
    bottom_right := "╛", bottom_left := "╘", vertical_left := "╡",
    vertical_right := "╞", horizontal_down := "╤", horizontal_up := "╧",
    cross := "╪" }

/-- `EMPTY_SET` from `ratatui.rs`: all glyphs blank. -/
def EMPTY_SET : LineSet :=
  { vertical := " ", horizontal := " ", top_right := " ", top_left := " ",
    bottom_right := " ", bottom_left := " ", vertical_left := " ",
    vertical_right := " ", horizontal_down := " ", horizontal_up := " ",
    cross := " " }

/-- `ratatui::symbols::border::Set` (the per-widget border glyph record). -/
structure BorderSet where
  top_left : String
  top_right : String
  bottom_left : String
  bottom_right : String
  vertical_left : String
  vertical_right : String
  horizontal_top : String
  horizontal_bottom : String
deriving DecidableEq

/-- `ratatui::symbols::border::EMPTY` (library constant: all blanks). -/
def BORDER_EMPTY : BorderSet :=
  { top_left := " ", top_right := " ", bottom_left := " ", bottom_right := " ",
    vertical_left := " ", vertical_right := " ", horizontal_top := " ",
    horizontal_bottom := " " }

/-- `struct Cell` from `ratatui.rs` (the renderer's per-cell record). -/
structure Cell where
  left : BorderStyle
  right : BorderStyle
  top : BorderStyle
  bottom : BorderStyle
  continued_left : Bool
  continued_right : Bool
  continued_up : Bool
  continued_down : Bool
  x : Nat
  y : Nat
  h : Nat
  w : Nat
  state : State
  selected : Bool
  enabled : Bool
  separate : Bool
  text : String
deriving DecidableEq

/-- The line-set selection `Cell::get_border_set` performs once per corner:
given a vertical side's style and the adjacent horizontal side's style, pick
the glyph table (`DOUBLE`, `DOUBLE_SIDES_PLAIN`, `PLAIN_SIDES_DOUBLE`,
`NORMAL` or `EMPTY_SET`).  The source spells this nested conditional out once
for each of `top_left_set`, `bottom_left_set`, `top_right_set` and
`bottom_right_set`. -/
def sideSet (side other : BorderStyle) : LineSet :=
  if side = BorderStyle.Double then
    if other = BorderStyle.Double then DOUBLE
    else if other = BorderStyle.Plain then DOUBLE_SIDES_PLAIN
    else EMPTY_SET
  else if side = BorderStyle.Plain then
    if other = BorderStyle.Double then PLAIN_SIDES_DOUBLE
    else if other = BorderStyle.Plain then NORMAL
    else EMPTY_SET
  else EMPTY_SET

/-- `Cell::get_border_set`: resolve the four corner glyphs from the two
adjacent side styles (`top_left_set = sideSet c.left c.top` and so on) and
the `continued_*` flags, then fill in the four side strokes. -/
def Cell.get_border_set (c : Cell) : BorderSet :=
  let top_left_set := sideSet c.left c.top
  let bottom_left_set := sideSet c.left c.bottom
  let top_right_set := sideSet c.right c.top
  let bottom_right_set := sideSet c.right c.bottom
  { top_left :=
      if c.continued_left && c.continued_up then top_left_set.cross
      else if c.continued_left then top_left_set.horizontal_down
      else if c.continued_up then top_left_set.vertical_right
      else top_left_set.top_left,
    bottom_left :=
      if c.continued_left && c.continued_down then bottom_left_set.cross
      else if c.continued_left then bottom_left_set.horizontal_up
      else if c.continued_down then bottom_left_set.vertical_right
      else bottom_left_set.bottom_left,
    top_right :=
      if c.continued_right && c.continued_up then top_right_set.cross
      else if c.continued_right then top_right_set.horizontal_down
      else if c.continued_up then top_right_set.vertical_left
      else top_right_set.top_right,
    bottom_right :=
      if c.continued_right && c.continued_down then bottom_right_set.cross
      else if c.continued_right then bottom_right_set.horizontal_up
      else if c.continued_down then bottom_right_set.vertical_left
      else bottom_right_set.bottom_right,
    vertical_right :=
      if c.right = BorderStyle.Double then DOUBLE.vertical
      else if c.right = BorderStyle.Plain then NORMAL.vertical
      else BORDER_EMPTY.vertical_right,
    horizontal_top :=
      if c.top = BorderStyle.Double then DOUBLE.horizontal
      else if c.top = BorderStyle.Plain then NORMAL.horizontal
      else BORDER_EMPTY.horizontal_top,
    horizontal_bottom :=
      if c.bottom = BorderStyle.Double then DOUBLE.horizontal
      else if c.bottom = BorderStyle.Plain then NORMAL.horizontal
      else BORDER_EMPTY.horizontal_bottom,
    vertical_left :=
      if c.left = BorderStyle.Double then DOUBLE.vertical
      else if c.left = BorderStyle.Plain then NORMAL.vertical
      else BORDER_EMPTY.vertical_left }

/-- The horizontal mirror image of a box-drawing glyph (left-right
reflection), for the glyphs occurring in the border tables above; any other
string is its own mirror. -/
def mirrorGlyph (s : String) : String :=
  match s with
  | "╓" => "╖"
  | "╖" => "╓"
  | "╙" => "╜"
  | "╜" => "╙"
  | "╒" => "╕"
  | "╕" => "╒"
  | "╘" => "╛"
  | "╛" => "╘"
  | "┌" => "┐"
  | "┐" => "┌"
  | "└" => "┘"
  | "┘" => "└"
  | "╔" => "╗"
  | "╗" => "╔"
  | "╚" => "╝"
  | "╝" => "╚"
  | "╟" => "╢"
  | "╢" => "╟"
  | "╞" => "╡"
  | "╡" => "╞"
  | "├" => "┤"
  | "┤" => "├"
  | "╠" => "╣"
  | "╣" => "╠"
  | _ => s

/-- Swap a cell's left and right border specification (styles and
continuation flags) — the left-right mirror of its `BorderSpec`. -/
def Cell.swapLR (c : Cell) : Cell :=
  { c with
    left := c.right
    right := c.left
    continued_left := c.continued_right
    continued_right := c.continued_left }

/-! ### `render_sudoku_grid` -/

/-- `ratatui::layout::Rect` (all `u16` fields, kept as `Nat`). -/
structure Rect where
  x : Nat
  y : Nat
  width : Nat
  height : Nat
deriving DecidableEq

/-- Application state visible to the renderer: the puzzle model and the cursor
(kept inside `0..=8` by `App::handle_key`). -/
structure App where
  model : SudokuModel
  cursor_x : Fin 9
  cursor_y : Fin 9

/-- `let cell_stride_y = config.cell_h + if config.cell_collapsed { 0 } else { 1 };`. -/
def cell_stride_y (c : LayoutConfig) : Nat :=
  c.cell_h + (if c.cell_collapsed then 0 else 1)

/-- `let cell_stride_x = config.cell_w + if collapsed { 0 } else { 1 } -
if cell_border && collapsed { 1 } else { 0 };` (left-associated `u16`
arithmetic; the subtraction cannot underflow because `cell_border` implies
`cell_w > 2`). -/
def cell_stride_x (c : LayoutConfig) : Nat :=
  c.cell_w + (if c.cell_collapsed then 0 else 1) -
    (if c.cell_border && c.cell_collapsed then 1 else 0)

/-- `let separator_stride = if config.separators_collapsed { 0 } else { 1 };`. -/
def separator_stride (c : LayoutConfig) : Nat :=
  if c.separators_collapsed then 0 else 1

/-- `fn get_correction` from `ratatui.rs`: `(size correction, position
correction)` for one axis index. -/
def get_correction (config : LayoutConfig) (x : Nat) : Nat × Nat :=
  if !config.outer_border && config.separators_visible then
    if config.separators_collapsed then
      if x = 0 then (1, 0)
      else if x = 8 then (1, 1)
      else (0, 1)
    else (0, 1)
  else (0, 0)

/-- The centered grid rectangle `inner` computed by `render_sudoku_grid`
(`saturating_sub` is `Nat` subtraction). -/
def innerRect (area : Rect) (config : LayoutConfig) : Rect :=
  { x := area.x + (area.width - config.grid_width) / 2,
    y := area.y + (area.height - config.grid_height) / 2,
    width := config.grid_width,
    height := config.grid_height }

/-- Two's-complement result of a `u16` expression computed in `Int`. -/
def wrap16 (a : Int) : Nat := (a % 65536).toNat

/-- The `cell_x` position: `inner.x + x * cell_stride_x + (x / 3) *
separator_stride - correction_x` in `u16` arithmetic (the subtraction may
wrap; the additions stay far below `2^16` whenever the grid fits a frame). -/
def cellXPos (inner : Rect) (config : LayoutConfig) (x : Nat) : Nat :=
  wrap16 ((inner.x + x * cell_stride_x config + (x / 3) * separator_stride config : Nat)
    - ((get_correction config x).2 : Int))

/-- The `cell_y` position, symmetric to `cellXPos`. -/
def cellYPos (inner : Rect) (config : LayoutConfig) (y : Nat) : Nat :=
  wrap16 ((inner.y + y * cell_stride_y config + (y / 3) * separator_stride config : Nat)
    - ((get_correction config y).2 : Int))

/-- No-underflow predicate for the `cell_x` computation: the subtracted
positional correction never exceeds the accumulated offset. -/
def x_offset_ok (config : LayoutConfig) (inner : Rect) (x : Nat) : Prop :=
  (get_correction config x).2 ≤
    inner.x + x * cell_stride_x config + (x / 3) * separator_stride config

/-- No-underflow predicate for the `cell_y` computation. -/
def y_offset_ok (config : LayoutConfig) (inner : Rect) (y : Nat) : Prop :=
  (get_correction config y).2 ≤
    inner.y + y * cell_stride_y config + (y / 3) * separator_stride config

/-- The body of the per-cell loop of `render_sudoku_grid` for logical
coordinate `(x, y)`: `none` models the `continue` that skips cells falling
outside the frame bounds. -/
def cellAt (frameArea : Rect) (app : App) (config : LayoutConfig) (inner : Rect)
    (x y : Fin 9) : Option Cell :=
  let correction_w := (get_correction config x.val).1
  let correction_h := (get_correction config y.val).1
  let cell_x := cellXPos inner config x.val
  let cell_y := cellYPos inner config y.val
  if (cell_x + config.cell_w) % 65536 > frameArea.width ∨
      (cell_y + config.cell_h) % 65536 > frameArea.height then none
  else
    let enabled := (app.model.get x y).enabled
    let selected := decide (app.cursor_x = x) && decide (app.cursor_y = y)
    let state :=
      match app.model.colour x y with
      | Colour.Black => State.Neutral
      | Colour.Red => State.Bad
      | Colour.Green => State.Good
    let value := (app.model.get x y).text
    let border_left :=
      if config.cell_border then
        if x.val = 0 ∧ ¬config.outer_border ∧ config.separators_collapsed then
          BorderStyle.None
        else if x.val % 3 = 0 ∧ config.separators_visible ∧ config.separators_collapsed then
          BorderStyle.Double
        else BorderStyle.Plain
      else BorderStyle.None
    let border_right :=
      if config.cell_border then
        if x.val = 8 ∧ ¬config.outer_border ∧ config.separators_collapsed then
          BorderStyle.None
        else if x.val % 3 = 2 ∧ config.separators_visible ∧ config.separators_collapsed then
          BorderStyle.Double
        else BorderStyle.Plain
      else BorderStyle.None
    let border_top :=
      if config.cell_border then
        if y.val = 0 ∧ ¬config.outer_border ∧ config.separators_collapsed then
          BorderStyle.None
        else if y.val % 3 = 0 ∧ config.separators_visible ∧ config.separators_collapsed then
          BorderStyle.Double
        else BorderStyle.Plain
      else BorderStyle.None
    let border_bottom :=
      if config.cell_border then
        if y.val = 8 ∧ ¬config.outer_border ∧ config.separators_collapsed then
          BorderStyle.None
        else if y.val % 3 = 2 ∧ config.separators_visible ∧ config.separators_collapsed then
          BorderStyle.Double
        else BorderStyle.Plain
      else BorderStyle.None
    some
      { left := border_left, right := border_right, top := border_top,
        bottom := border_bottom,
        continued_left := decide (0 < x.val) && config.cell_collapsed &&
          (config.separators_collapsed || decide (x.val % 3 ≠ 0)),
        continued_right := decide (x.val < 8) && config.cell_collapsed &&
          (config.separators_collapsed || decide (x.val % 3 ≠ 2)),
        continued_up := decide (0 < y.val) && config.cell_collapsed &&
          (config.separators_collapsed || decide (y.val % 3 ≠ 0)),
        continued_down := decide (y.val < 8) && config.cell_collapsed &&
          (config.separators_collapsed || decide (y.val % 3 ≠ 2)),
        x := cell_x, y := cell_y, w := config.cell_w - correction_w,
        h := config.cell_h - correction_h, state := state, selected := selected,
        enabled := enabled, separate := !config.cell_collapsed, text := value }

/-- The list of cells `render_sudoku_grid` pushes (outer loop over `y`, inner
over `x`; skipped cells are dropped).  The later stable sort by
`(selected, !enabled, state)` only fixes paint order and is not modelled. -/
def cellsList (frameArea : Rect) (app : App) (config : LayoutConfig) (inner : Rect) :
    List Cell :=
  (List.finRange 9).flatMap fun y =>
    (List.finRange 9).filterMap fun x => cellAt frameArea app config inner x y

/-- What `render_sudoku_grid` paints: either only the "terminal too small"
fallback message (no cell, no separator), or the grid cells together with the
flag telling whether the separator overlay runs
(`!separators_collapsed && separators_visible` in `render_separators`). -/
inductive RenderResult where
  | tooSmall
  | grid (cells : List Cell) (separators : Bool)
deriving DecidableEq

/-- `fn render_sudoku_grid`: fall back to the "terminal too small" message
when the computed footprint exceeds the allocated rectangle, otherwise paint
the cell list (and the separator overlay when enabled). -/
def render_sudoku_grid (frameArea : Rect) (app : App) (area : Rect)
    (config : LayoutConfig) : RenderResult :=
  let grid_width := config.grid_width
  let grid_height := config.grid_height
  let inner := innerRect area config
  if grid_height > area.height ∨ grid_width > area.width then RenderResult.tooSmall
  else
    RenderResult.grid (cellsList frameArea app config inner)
      (!config.separators_collapsed && config.separators_visible)

/-! ### Claim-level predicates and concrete witness material -/

/-- The cell `(x, y)` has a duplicate of its value elsewhere in its row
(constant `y` — the axis scanned by the `lookup_x` loop of `colour`). -/
def hasRowDuplicate (m : SudokuModel) (x y : Fin 9) : Prop :=
  ∃ i : Fin 9, i ≠ x ∧ (m.get i y).value = (m.get x y).value

/-- The cell `(x, y)` has a duplicate of its value elsewhere in its column
(constant `x` — the axis scanned by the `lookup_y` loop of `colour`). -/
def hasColDuplicate (m : SudokuModel) (x y : Fin 9) : Prop :=
  ∃ j : Fin 9, j ≠ y ∧ (m.get x j).value = (m.get x y).value

/-- The cell `(x, y)` has a duplicate of its value elsewhere in its 3×3 block. -/
def hasBlockDuplicate (m : SudokuModel) (x y : Fin 9) : Prop :=
  ∃ a b : Fin 9, fdiv3 a = fdiv3 x ∧ fdiv3 b = fdiv3 y ∧ ¬(a = x ∧ b = y) ∧
    (m.get a b).value = (m.get x y).value

/-- A concrete model: the line `y = 0` holds `1..9` left to right (complete and
internally valid), and the cell `(0, 1)` repeats the `1` of `(0, 0)` in column
`x = 0`.  Every cell is enabled. -/
def cexModel : SudokuModel :=
  ⟨fun a b =>
    ⟨fun i j =>
      let x := a.val * 3 + i.val
      let y := b.val * 3 + j.val
      if y = 0 then ⟨x + 1, true⟩
      else if x = 0 ∧ y = 1 then ⟨1, true⟩
      else ⟨0, true⟩⟩⟩

instance (c : LayoutConfig) (r : Rect) (x : Nat) : Decidable (x_offset_ok c r x) :=
  inferInstanceAs (Decidable (_ ≤ _))

instance (c : LayoutConfig) (r : Rect) (y : Nat) : Decidable (y_offset_ok c r y) :=
  inferInstanceAs (Decidable (_ ≤ _))

instance (m : SudokuModel) (x y : Fin 9) : Decidable (hasRowDuplicate m x y) :=
  inferInstanceAs (Decidable (∃ i : Fin 9, i ≠ x ∧ (m.get i y).value = (m.get x y).value))

instance (m : SudokuModel) (x y : Fin 9) : Decidable (hasColDuplicate m x y) :=
  inferInstanceAs (Decidable (∃ j : Fin 9, j ≠ y ∧ (m.get x j).value = (m.get x y).value))

instance (m : SudokuModel) (x y : Fin 9) : Decidable (hasBlockDuplicate m x y) :=
  inferInstanceAs
    (Decidable (∃ a b : Fin 9, fdiv3 a = fdiv3 x ∧ fdiv3 b = fdiv3 y ∧ ¬(a = x ∧ b = y) ∧
      (m.get a b).value = (m.get x y).value))

/-! ## Theorems -/

/-- C1: the mode classifier is a total function, but its footprint does NOT
always fit the requested area.  At width 9, height 19 it computes a grid
width of 10 > 9 (and at width 50, height 29 a grid width of 55 > 50), even
though the particular regression case of the spec, `from_size(129, 17)`, does
yield grid height exactly 17.  This evaluates the code at those inputs. -/
theorem from_size_footprint_violation :
    (LayoutConfig.from_size 9 19).grid_width = 10 ∧ 9 < 10 ∧
    (LayoutConfig.from_size 50 29).grid_width = 55 ∧ 50 < 55 ∧
    (LayoutConfig.from_size 129 17).grid_height = 17 := by
  refine ⟨by decide, by decide, by decide, by decide, by decide⟩

/-- C2 (counterexample): on a canvas of height 20 the header band is NOT a
borderless single row: `ui` gives the header borders from height 15 on, so at
40×20 the header band is 3 rows tall. -/
theorem ui_40x20_header_not_borderless :
    header_borders 20 = true ∧ headerRows 20 = 3 ∧ ¬headerRows 20 = 1 := by
  refine ⟨by decide, by decide, by decide⟩

/-- C2 (amended): for a 40×20 canvas, `ui` shows the header WITH borders
(3 rows), the footer WITH borders (3 rows), and the grid band receives the
remaining 14 rows. -/
theorem ui_40x20_bands :
    show_header 20 = true ∧ header_borders 20 = true ∧ headerRows 20 = 3 ∧
    show_instructions 20 = true ∧ footer_borders 20 = true ∧ footerRows 20 = 3 ∧
    gridRows 20 = 14 := by
  refine ⟨by decide, by decide, by decide, by decide, by decide, by decide, by decide⟩

/-- C7 (counterexample): for the reachable configuration `from_size(32, 17)`
cell borders are on and collapsed, and the horizontal per-cell stride is
`cell_w - 1 = 2`, not the `cell_w = 3` the claim requires for collapsed
borders. -/
theorem stride_x_not_cell_w :
    (LayoutConfig.from_size 32 17).cell_collapsed = true ∧
    (LayoutConfig.from_size 32 17).cell_w = 3 ∧
    cell_stride_x (LayoutConfig.from_size 32 17) = 2 ∧
    ¬cell_stride_x (LayoutConfig.from_size 32 17) =
      (LayoutConfig.from_size 32 17).cell_w := by
  refine ⟨by decide, by decide, by decide, by decide⟩

/-- C7 (amended): for every layout configuration the vertical stride is
`cell_h` plus one extra border row exactly when cell borders are not
collapsed; the horizontal stride follows the same rule except that when cell
borders are present AND collapsed it is `cell_w - 1` (one column is taken
back because the fused border column overlaps the neighbouring cell). -/
theorem stride_formulas (c : LayoutConfig) :
    cell_stride_y c = c.cell_h + (if c.cell_collapsed then 0 else 1) ∧
    cell_stride_x c =
      (if c.cell_border ∧ c.cell_collapsed then c.cell_w - 1
       else c.cell_w + (if c.cell_collapsed then 0 else 1)) := by
  refine ⟨rfl, ?_⟩
  cases hb : c.cell_border <;> cases hc : c.cell_collapsed <;>
    simp [cell_stride_x, hb, hc]

/-- Every glyph table `sideSet` can select is consistent under left-right
reflection: the crosses and T-junctions pointing up/down are their own
mirrors, while the left/right variants swap. -/
theorem sideSet_mirror_fields (a b : BorderStyle) :
    mirrorGlyph (sideSet a b).cross = (sideSet a b).cross ∧
    mirrorGlyph (sideSet a b).horizontal_down = (sideSet a b).horizontal_down ∧
    mirrorGlyph (sideSet a b).horizontal_up = (sideSet a b).horizontal_up ∧
    mirrorGlyph (sideSet a b).vertical_right = (sideSet a b).vertical_left ∧
    mirrorGlyph (sideSet a b).vertical_left = (sideSet a b).vertical_right ∧
    mirrorGlyph (sideSet a b).top_left = (sideSet a b).top_right ∧
    mirrorGlyph (sideSet a b).top_right = (sideSet a b).top_left ∧
    mirrorGlyph (sideSet a b).bottom_left = (sideSet a b).bottom_right ∧
    mirrorGlyph (sideSet a b).bottom_right = (sideSet a b).bottom_left := by
  cases a <;> cases b <;>
    exact ⟨rfl, rfl, rfl, rfl, rfl, rfl, rfl, rfl, rfl⟩

/-- C8: border-glyph resolution is symmetric under a left-right mirror of the
border specification: swapping the left/right styles and the
`continued_left`/`continued_right` flags turns each right-hand corner glyph
into the horizontal mirror image of the corresponding left-hand corner glyph
of the original cell, and vice versa. -/
theorem border_set_mirror (c : Cell) :
    (c.swapLR.get_border_set).top_right = mirrorGlyph ((c.get_border_set).top_left) ∧
    (c.swapLR.get_border_set).bottom_right = mirrorGlyph ((c.get_border_set).bottom_left) ∧
    (c.swapLR.get_border_set).top_left = mirrorGlyph ((c.get_border_set).top_right) ∧
    (c.swapLR.get_border_set).bottom_left = mirrorGlyph ((c.get_border_set).bottom_right) := by
  obtain ⟨ltC, ltD, ltU, ltVR, ltVL, ltTL, ltTR, ltBL, ltBR⟩ :=
    sideSet_mirror_fields c.left c.top
  obtain ⟨lbC, lbD, lbU, lbVR, lbVL, lbTL, lbTR, lbBL, lbBR⟩ :=
    sideSet_mirror_fields c.left c.bottom
  obtain ⟨rtC, rtD, rtU, rtVR, rtVL, rtTL, rtTR, rtBL, rtBR⟩ :=
    sideSet_mirror_fields c.right c.top
  obtain ⟨rbC, rbD, rbU, rbVR, rbVL, rbTL, rbTR, rbBL, rbBR⟩ :=
    sideSet_mirror_fields c.right c.bottom
  refine ⟨?_, ?_, ?_, ?_⟩ <;>
    simp only [Cell.get_border_set, Cell.swapLR] <;>
    cases hcl : c.continued_left <;> cases hcr : c.continued_right <;>
    cases hcu : c.continued_up <;> cases hcd : c.continued_down <;>
    simp_all

/-- Reading back the entry just written through `SudokuModel.update`. -/
theorem get_update_self (m : SudokuModel) (x y : Fin 9) (v : SudokuValue) :
    (m.update x y v).get x y = v := by
  simp [SudokuModel.get, SudokuModel.update]

/-- C3: for an enabled cell holding `v ≤ 9`, `add` with delta `±1` replaces
the value by `(v + delta) mod 10` (incrementing 9 gives 0, decrementing 0
gives 9); for a fixed cell `add` leaves the value unchanged. -/
theorem add_wraps (m : SudokuModel) (x y : Fin 9) (d : Int) (hd : d = 1 ∨ d = -1) :
    ((m.get x y).enabled = true → (m.get x y).value ≤ 9 →
      (((m.add x y d).get x y).value : Int) = (((m.get x y).value : Int) + d) % 10) ∧
    ((m.get x y).enabled = false → (m.add x y d).get x y = m.get x y) := by
  constructor
  · intro hen hv
    have : m.add x y d =
        m.update x y
          { m.get x y with
            value :=
              if wrapping_add_signed (m.get x y).value d = 255 then 9
              else wrapping_add_signed (m.get x y).value d % 10 } := by
      simp [SudokuModel.add, SudokuModel.set, hen]
    rw [this, get_update_self]
    simp only [wrapping_add_signed]
    rcases hd with rfl | rfl <;> split_ifs <;> omega
  · intro hen
    have : m.add x y d = m := by
      simp [SudokuModel.add, SudokuModel.set, hen]
    rw [this]

/-- Witness for C3 at a concrete input: the enabled empty cell `(1, 1)` of
`cexModel` decrements from 0 to 9 (wrap-around). -/
theorem add_wraps_witness :
    (cexModel.get 1 1).enabled = true ∧ (cexModel.get 1 1).value ≤ 9 ∧
    (((cexModel.add 1 1 (-1)).get 1 1).value : Int) =
      (((cexModel.get 1 1).value : Int) + (-1)) % 10 ∧
    ((cexModel.add 1 1 (-1)).get 1 1).value = 9 := by
  refine ⟨by decide, by decide,
    (add_wraps cexModel 1 1 (-1) (Or.inr rfl)).1 (by decide) (by decide), by decide⟩

/-- C4: every `set` (any digit, including the clear `set .. 0`) and every
`add` (`+1` and `-1`) on a fixed (disabled) cell leaves the entire model
unchanged. -/
theorem fixed_cell_unchanged (m : SudokuModel) (x y : Fin 9)
    (h : (m.get x y).enabled = false) :
    (∀ digit : Nat, m.set x y digit = m) ∧ m.set x y 0 = m ∧
    m.add x y 1 = m ∧ m.add x y (-1) = m := by
  have hset : ∀ v : Nat, m.set x y v = m := by
    intro v
    simp [SudokuModel.set, h]
  exact ⟨hset, hset 0, hset _, hset _⟩

/-- Witness for C4 at a concrete input: the fixed cell `(0, 0)` of the
repository's example puzzle ignores digits, clears and increments. -/
theorem fixed_cell_unchanged_witness :
    (exampleModel.get 0 0).enabled = false ∧
    exampleModel.set 0 0 5 = exampleModel ∧ exampleModel.set 0 0 0 = exampleModel ∧
    exampleModel.add 0 0 1 = exampleModel ∧ exampleModel.add 0 0 (-1) = exampleModel := by
  have h : (exampleModel.get 0 0).enabled = false := by decide
  obtain ⟨h1, h2, h3, h4⟩ := fixed_cell_unchanged exampleModel 0 0 h
  exact ⟨h, h1 5, h2, h3, h4⟩

/-! ### Characterising `colour` -/

/-- An errored scan stays errored. -/
theorem foldl_scanStep_error (val : α → Nat) (hit : α → Bool) (l : List α) (c : Colour) :
    l.foldl (scanStep val hit) (.error c) = .error c := by
  induction l with
  | nil => rfl
  | cons a l ih => rw [List.foldl_cons]; exact ih

/-- A scanning loop early-returns `Red` exactly when some element fires its
`hit` condition. -/
theorem foldl_scanStep_eq_error_iff (val : α → Nat) (hit : α → Bool) (l : List α)
    (s : Finset ℕ) :
    l.foldl (scanStep val hit) (.ok s) = .error Colour.Red ↔ ∃ a ∈ l, hit a = true := by
  induction l generalizing s with
  | nil => simp
  | cons a l ih =>
    rw [List.foldl_cons]
    by_cases h : hit a = true
    · simp only [scanStep, h, if_true]
      rw [foldl_scanStep_error]
      simp [h]
    · have h' : hit a = false := Bool.eq_false_iff.mpr h
      simp only [scanStep, h', Bool.false_eq_true, if_false]
      rw [ih]
      simp [h']

/-- A scanning loop that never fires ends with the candidate set minus every
value it saw. -/
theorem foldl_scanStep_ok (val : α → Nat) (hit : α → Bool) (l : List α)
    (s : Finset ℕ) (h : ∀ a ∈ l, hit a = false) :
    l.foldl (scanStep val hit) (.ok s) = .ok (s \ (l.map val).toFinset) := by
  induction l generalizing s with
  | nil => simp
  | cons a l ih =>
    rw [List.foldl_cons]
    have ha : hit a = false := h a (by simp)
    simp only [scanStep, ha, Bool.false_eq_true, if_false]
    rw [ih _ (fun b hb => h b (by simp [hb]))]
    congr 1
    ext b
    simp only [Finset.mem_sdiff, Finset.mem_erase, List.map_cons, List.toFinset_cons,
      Finset.mem_insert, List.mem_toFinset]
    tauto

/-- `pairs3` enumerates every pair. -/
theorem mem_pairs3 (p : Fin 3 × Fin 3) : p ∈ pairs3 := by
  rcases p with ⟨i, j⟩
  simp only [pairs3, List.mem_flatMap, List.mem_map]
  exact ⟨i, List.mem_finRange i, j, List.mem_finRange j, rfl⟩

/-- `colour` in closed form: `Red` when the non-zero target has some duplicate
hit, otherwise `Green` exactly when one of the three scans empties its
candidate set, and `Black` in every remaining case (including target 0). -/
theorem colour_characterisation (m : SudokuModel) (x y : Fin 9) :
    m.colour x y =
      if (m.get x y).value ≠ 0 then
        if (∃ p : Fin 3 × Fin 3, blockHit m x y p = true) ∨
            (∃ i : Fin 9, rowHit m x y i = true) ∨
            (∃ j : Fin 9, colHit m x y j = true) then Colour.Red
        else if Finset.Icc 1 9 \ (pairs3.map (blockVal m x y)).toFinset = ∅ ∨
            Finset.Icc 1 9 \ ((List.finRange 9).map (rowVal m y)).toFinset = ∅ ∨
            Finset.Icc 1 9 \ ((List.finRange 9).map (colVal m x)).toFinset = ∅ then
          Colour.Green
        else Colour.Black
      else Colour.Black := by
  by_cases h0 : (m.get x y).value = 0
  · have hne : ¬((Finset.Icc 1 9 : Finset ℕ) = ∅ ∨ (Finset.Icc 1 9 : Finset ℕ) = ∅ ∨
        (Finset.Icc 1 9 : Finset ℕ) = ∅) := by decide
    simp [SudokuModel.colour, h0, hne]
  · by_cases hb : ∃ p : Fin 3 × Fin 3, blockHit m x y p = true
    · have hbs : blockScan m x y = .error Colour.Red := by
        rw [blockScan, scan, foldl_scanStep_eq_error_iff]
        obtain ⟨p, hp⟩ := hb
        exact ⟨p, mem_pairs3 p, hp⟩
      simp [SudokuModel.colour, h0, hbs, hb]
    · have hball : ∀ p ∈ pairs3, blockHit m x y p = false := by
        intro p _
        exact Bool.eq_false_iff.mpr fun h => hb ⟨p, h⟩
      have hbs : blockScan m x y =
          .ok (Finset.Icc 1 9 \ (pairs3.map (blockVal m x y)).toFinset) :=
        foldl_scanStep_ok _ _ _ _ hball
      by_cases hr : ∃ i : Fin 9, rowHit m x y i = true
      · have hrs : rowScan m x y = .error Colour.Red := by
          rw [rowScan, scan, foldl_scanStep_eq_error_iff]
          obtain ⟨i, hi⟩ := hr
          exact ⟨i, List.mem_finRange i, hi⟩
        simp [SudokuModel.colour, h0, hbs, hrs, hb, hr]
      · have hrall : ∀ i ∈ List.finRange 9, rowHit m x y i = false := by
          intro i _
          exact Bool.eq_false_iff.mpr fun h => hr ⟨i, h⟩
        have hrs : rowScan m x y =
            .ok (Finset.Icc 1 9 \ ((List.finRange 9).map (rowVal m y)).toFinset) :=
          foldl_scanStep_ok _ _ _ _ hrall
        by_cases hc : ∃ j : Fin 9, colHit m x y j = true
        · have hcs : colScan m x y = .error Colour.Red := by
            rw [colScan, scan, foldl_scanStep_eq_error_iff]
            obtain ⟨j, hj⟩ := hc
            exact ⟨j, List.mem_finRange j, hj⟩
          simp [SudokuModel.colour, h0, hbs, hrs, hcs, hb, hr, hc]
        · have hcall : ∀ j ∈ List.finRange 9, colHit m x y j = false := by
            intro j _
            exact Bool.eq_false_iff.mpr fun h => hc ⟨j, h⟩
          have hcs : colScan m x y =
              .ok (Finset.Icc 1 9 \ ((List.finRange 9).map (colVal m x)).toFinset) :=
            foldl_scanStep_ok _ _ _ _ hcall
          simp [SudokuModel.colour, h0, hbs, hrs, hcs, hb, hr, hc]

/-- A cell of the 9×9 grid is determined by its block index and its offset
inside the block. -/
theorem fin9_eq_of_div_mod (a x : Fin 9) (h1 : fdiv3 a = fdiv3 x)
    (h2 : fmod3 a = fmod3 x) : a = x := by
  have d1 : a.val / 3 = x.val / 3 := congrArg Fin.val h1
  have d2 : a.val % 3 = x.val % 3 := congrArg Fin.val h2
  exact Fin.ext (by omega)

/-- The row loop fires for some index exactly when the cell has a row
duplicate. -/
theorem exists_rowHit_iff (m : SudokuModel) (x y : Fin 9) :
    (∃ i : Fin 9, rowHit m x y i = true) ↔ hasRowDuplicate m x y := by
  simp only [rowHit, rowVal, hasRowDuplicate, Bool.and_eq_true, decide_eq_true_eq]
  constructor
  · rintro ⟨i, h1, h2⟩
    exact ⟨i, Ne.symm h1, h2.symm⟩
  · rintro ⟨i, h1, h2⟩
    exact ⟨i, Ne.symm h1, h2.symm⟩

/-- The column loop fires for some index exactly when the cell has a column
duplicate. -/
theorem exists_colHit_iff (m : SudokuModel) (x y : Fin 9) :
    (∃ j : Fin 9, colHit m x y j = true) ↔ hasColDuplicate m x y := by
  simp only [colHit, colVal, hasColDuplicate, Bool.and_eq_true, decide_eq_true_eq]
  constructor
  · rintro ⟨j, h1, h2⟩
    exact ⟨j, Ne.symm h1, h2.symm⟩
  · rintro ⟨j, h1, h2⟩
    exact ⟨j, Ne.symm h1, h2.symm⟩

/-- The block loop fires for some offset exactly when the cell has a block
duplicate. -/
theorem exists_blockHit_iff (m : SudokuModel) (x y : Fin 9) :
    (∃ p : Fin 3 × Fin 3, blockHit m x y p = true) ↔ hasBlockDuplicate m x y := by
  simp only [blockHit, blockVal, hasBlockDuplicate, Bool.and_eq_true,
    Bool.not_eq_eq_eq_not, Bool.not_true, decide_eq_false_iff_not, decide_eq_true_eq]
  constructor
  · rintro ⟨⟨i, j⟩, hne, hval⟩
    have hdx : (fdiv3 x).val = x.val / 3 := rfl
    have hdy : (fdiv3 y).val = y.val / 3 := rfl
    obtain ⟨a, haval⟩ : ∃ a : Fin 9, a.val = (fdiv3 x).val * 3 + i.val :=
      ⟨⟨_, by omega⟩, rfl⟩
    obtain ⟨b, hbval⟩ : ∃ b : Fin 9, b.val = (fdiv3 y).val * 3 + j.val :=
      ⟨⟨_, by omega⟩, rfl⟩
    have hda : fdiv3 a = fdiv3 x := Fin.ext (show a.val / 3 = x.val / 3 by omega)
    have hdb : fdiv3 b = fdiv3 y := Fin.ext (show b.val / 3 = y.val / 3 by omega)
    have hma : fmod3 a = i := Fin.ext (show a.val % 3 = i.val by omega)
    have hmb : fmod3 b = j := Fin.ext (show b.val % 3 = j.val by omega)
    refine ⟨a, b, hda, hdb, ?_, ?_⟩
    · rintro ⟨rfl, rfl⟩
      exact hne ⟨hma.symm, hmb.symm⟩
    · have hget : m.get a b = (m.cells (fdiv3 x) (fdiv3 y)).values i j := by
        rw [SudokuModel.get, hda, hdb, hma, hmb]
      rw [hget]
      exact hval.symm
  · rintro ⟨a, b, hda, hdb, hne, hval⟩
    refine ⟨(fmod3 a, fmod3 b), ?_, ?_⟩
    · rintro ⟨h1, h2⟩
      exact hne ⟨fin9_eq_of_div_mod a x hda h1, fin9_eq_of_div_mod b y hdb h2⟩
    · have hget : (m.cells (fdiv3 x) (fdiv3 y)).values (fmod3 a) (fmod3 b) = m.get a b := by
        rw [SudokuModel.get, hda, hdb]
      show (m.get x y).value =
        ((m.cells (fdiv3 x) (fdiv3 y)).values (fmod3 a) (fmod3 b)).value
      rw [hget, hval]

/-- A non-zero cell with a same-axis duplicate is coloured `Red`. -/
theorem red_of_duplicate (m : SudokuModel) (x y a b : Fin 9)
    (hne : ¬(a = x ∧ b = y))
    (haxis : b = y ∨ a = x ∨ (fdiv3 a = fdiv3 x ∧ fdiv3 b = fdiv3 y))
    (hval : (m.get a b).value = (m.get x y).value)
    (h0 : (m.get x y).value ≠ 0) :
    m.colour x y = Colour.Red := by
  have hdup : (∃ p : Fin 3 × Fin 3, blockHit m x y p = true) ∨
      (∃ i : Fin 9, rowHit m x y i = true) ∨
      (∃ j : Fin 9, colHit m x y j = true) := by
    rcases haxis with hby | hax | hblk
    · have hval' : (m.get a y).value = (m.get x y).value := by
        rw [← hby] at hval ⊢
        exact hval
      refine Or.inr (Or.inl ((exists_rowHit_iff m x y).mpr ⟨a, ?_, hval'⟩))
      intro haxx
      exact hne ⟨haxx, hby⟩
    · have hval' : (m.get x b).value = (m.get x y).value := by
        rw [← hax] at hval ⊢
        exact hval
      refine Or.inr (Or.inr ((exists_colHit_iff m x y).mpr ⟨b, ?_, hval'⟩))
      intro hbyy
      exact hne ⟨hax, hbyy⟩
    · exact Or.inl ((exists_blockHit_iff m x y).mpr ⟨a, b, hblk.1, hblk.2, hne, hval⟩)
  rw [colour_characterisation, if_pos h0, if_pos hdup]

/-- A cell with no duplicate in its row, column and block never fires any of
the three scanning loops. -/
theorem no_hit_of_no_duplicate (m : SudokuModel) (x y : Fin 9)
    (h1 : ¬hasRowDuplicate m x y) (h2 : ¬hasColDuplicate m x y)
    (h3 : ¬hasBlockDuplicate m x y) :
    ¬((∃ p : Fin 3 × Fin 3, blockHit m x y p = true) ∨
      (∃ i : Fin 9, rowHit m x y i = true) ∨
      (∃ j : Fin 9, colHit m x y j = true)) := by
  rintro (hb | hr | hc)
  · exact h3 ((exists_blockHit_iff m x y).mp hb)
  · exact h1 ((exists_rowHit_iff m x y).mp hr)
  · exact h2 ((exists_colHit_iff m x y).mp hc)

/-- C5: whenever two distinct cells share the same non-zero value in the same
row (`b = y`), the same column (`a = x`) or the same 3×3 block, `colour`
reports `Red` for both of them; and a cell whose value has no duplicate in
its row, its column or its block is never reported `Red`. -/
theorem conflict_detection :
    (∀ (m : SudokuModel) (x y a b : Fin 9),
        ¬(a = x ∧ b = y) →
        (b = y ∨ a = x ∨ (fdiv3 a = fdiv3 x ∧ fdiv3 b = fdiv3 y)) →
        (m.get a b).value = (m.get x y).value → (m.get x y).value ≠ 0 →
        m.colour x y = Colour.Red ∧ m.colour a b = Colour.Red) ∧
    (∀ (m : SudokuModel) (x y : Fin 9),
        ¬hasRowDuplicate m x y → ¬hasColDuplicate m x y → ¬hasBlockDuplicate m x y →
        m.colour x y ≠ Colour.Red) := by
  constructor
  · intro m x y a b hne haxis hval h0
    refine ⟨red_of_duplicate m x y a b hne haxis hval h0, ?_⟩
    apply red_of_duplicate m a b x y
    · rintro ⟨h1, h2⟩
      exact hne ⟨h1.symm, h2.symm⟩
    · rcases haxis with h | h | ⟨hda, hdb⟩
      · exact Or.inl h.symm
      · exact Or.inr (Or.inl h.symm)
      · exact Or.inr (Or.inr ⟨hda.symm, hdb.symm⟩)
    · exact hval.symm
    · rw [hval]
      exact h0
  · intro m x y h1 h2 h3
    rw [colour_characterisation]
    by_cases h0 : (m.get x y).value ≠ 0
    · rw [if_pos h0, if_neg (no_hit_of_no_duplicate m x y h1 h2 h3)]
      split_ifs <;> simp
    · rw [if_neg h0]
      simp

/-- Witness for C5 at a concrete input: in `cexModel` the cells `(0,0)` and
`(0,1)` duplicate the value 1 in column `x = 0` and are both `Red`, while the
clean cell `(5,0)` is not `Red`. -/
theorem conflict_detection_witness :
    cexModel.colour 0 0 = Colour.Red ∧ cexModel.colour 0 1 = Colour.Red ∧
    ¬cexModel.colour 5 0 = Colour.Red := by
  obtain ⟨hA, hB⟩ :=
    conflict_detection.1 cexModel 0 0 0 1 (by decide) (Or.inr (Or.inl rfl))
      (by decide) (by decide)
  exact ⟨hA, hB, conflict_detection.2 cexModel 5 0 (by decide) (by decide) (by decide)⟩

/-- Values of a full line listed by the row/column loops cover the same
finite set as the image over all nine indices. -/
theorem map_finRange_toFinset (f : Fin 9 → ℕ) :
    ((List.finRange 9).map f).toFinset = Finset.univ.image f := by
  ext b
  simp

/-- Values listed by the block loop cover the image over all nine offsets. -/
theorem map_pairs3_toFinset (f : Fin 3 × Fin 3 → ℕ) :
    (pairs3.map f).toFinset = Finset.univ.image f := by
  ext b
  simp only [List.mem_toFinset, List.mem_map, Finset.mem_image, Finset.mem_univ, true_and]
  constructor
  · rintro ⟨p, _, rfl⟩
    exact ⟨p, rfl⟩
  · rintro ⟨p, rfl⟩
    exact ⟨p, mem_pairs3 p, rfl⟩

/-- C6 (counterexample): in `cexModel` the line `y = 0` holds every digit
1..9 exactly once, yet its cell `(0, 0)` is coloured `Red` (its value 1 is
duplicated in column `x = 0`), not `Green` as the claim demands for every
cell of a completed line. -/
theorem complete_line_not_green :
    Finset.univ.image (rowVal cexModel 0) = Finset.Icc 1 9 ∧
    cexModel.colour 0 0 = Colour.Red ∧ ¬cexModel.colour 0 0 = Colour.Green := by
  refine ⟨by decide, by decide, by decide⟩

/-- C6 (amended): every cell of a completely and validly filled row, column
or block is coloured `Green` provided its value is not also duplicated along
another axis (duplicates win: the `Red` early returns run before the
completeness test). -/
theorem complete_line_green (m : SudokuModel) (x y : Fin 9)
    (hline : Finset.univ.image (rowVal m y) = Finset.Icc 1 9 ∨
        Finset.univ.image (colVal m x) = Finset.Icc 1 9 ∨
        Finset.univ.image (blockVal m x y) = Finset.Icc 1 9)
    (h1 : ¬hasRowDuplicate m x y) (h2 : ¬hasColDuplicate m x y)
    (h3 : ¬hasBlockDuplicate m x y) :
    m.colour x y = Colour.Green := by
  have h0 : (m.get x y).value ≠ 0 := by
    have hmem : (m.get x y).value ∈ (Finset.Icc 1 9 : Finset ℕ) := by
      rcases hline with h | h | h
      · rw [← h]
        exact Finset.mem_image_of_mem _ (Finset.mem_univ x)
      · rw [← h]
        exact Finset.mem_image_of_mem _ (Finset.mem_univ y)
      · rw [← h]
        exact Finset.mem_image.mpr ⟨(fmod3 x, fmod3 y), Finset.mem_univ _, rfl⟩
    have := Finset.mem_Icc.mp hmem
    omega
  have hempty : Finset.Icc 1 9 \ (pairs3.map (blockVal m x y)).toFinset = ∅ ∨
      Finset.Icc 1 9 \ ((List.finRange 9).map (rowVal m y)).toFinset = ∅ ∨
      Finset.Icc 1 9 \ ((List.finRange 9).map (colVal m x)).toFinset = ∅ := by
    rcases hline with h | h | h
    · refine Or.inr (Or.inl ?_)
      rw [map_finRange_toFinset, h, Finset.sdiff_self]
    · refine Or.inr (Or.inr ?_)
      rw [map_finRange_toFinset, h, Finset.sdiff_self]
    · refine Or.inl ?_
      rw [map_pairs3_toFinset, h, Finset.sdiff_self]
  rw [colour_characterisation, if_pos h0,
    if_neg (no_hit_of_no_duplicate m x y h1 h2 h3), if_pos hempty]

/-- Witness for C6 (amended) at a concrete input: the cell `(5, 0)` of
`cexModel` lies on the complete line `y = 0` and has no duplicate anywhere,
so it is `Green`. -/
theorem complete_line_green_witness : cexModel.colour 5 0 = Colour.Green :=
  complete_line_green cexModel 5 0 (Or.inl (by decide)) (by decide) (by decide)
    (by decide)

/-! ### `render_sudoku_grid` and the position corrections -/

/-- C9: `render_sudoku_grid` paints the "terminal too small" fallback — and
then nothing else: no cell and no separator — exactly when the computed
footprint exceeds the allocated rectangle in height or width; as soon as the
footprint fits, it paints the grid cells (with the separator overlay when
enabled) instead of the message. -/
theorem render_fallback_iff (frameArea : Rect) (app : App) (area : Rect)
    (config : LayoutConfig) :
    (render_sudoku_grid frameArea app area config = RenderResult.tooSmall ↔
      (area.height < config.grid_height ∨ area.width < config.grid_width)) ∧
    (¬(area.height < config.grid_height ∨ area.width < config.grid_width) →
      render_sudoku_grid frameArea app area config =
        RenderResult.grid (cellsList frameArea app config (innerRect area config))
          (!config.separators_collapsed && config.separators_visible)) := by
  have hcond : render_sudoku_grid frameArea app area config =
      if config.grid_height > area.height ∨ config.grid_width > area.width then
        RenderResult.tooSmall
      else
        RenderResult.grid (cellsList frameArea app config (innerRect area config))
          (!config.separators_collapsed && config.separators_visible) := rfl
  by_cases h : config.grid_height > area.height ∨ config.grid_width > area.width
  · rw [hcond, if_pos h]
    exact ⟨⟨fun _ => h, fun _ => rfl⟩, fun hn => absurd h hn⟩
  · rw [hcond, if_neg h]
    refine ⟨⟨fun heq => ?_, fun hc => absurd hc h⟩, fun _ => rfl⟩
    simp at heq

/-- Witness for C9 at concrete inputs: a 9×8 grid area shows only the
fallback (footprint 9×9 does not fit), while an 11×11 grid area renders the
cell list. -/
theorem render_fallback_iff_witness :
    render_sudoku_grid ⟨0, 0, 40, 20⟩ ⟨cexModel, 0, 0⟩ ⟨0, 0, 9, 8⟩
      (LayoutConfig.from_size 9 8) = RenderResult.tooSmall ∧
    render_sudoku_grid ⟨0, 0, 40, 20⟩ ⟨cexModel, 0, 0⟩ ⟨0, 0, 11, 11⟩
      (LayoutConfig.from_size 11 11) =
      RenderResult.grid
        (cellsList ⟨0, 0, 40, 20⟩ ⟨cexModel, 0, 0⟩ (LayoutConfig.from_size 11 11)
          (innerRect ⟨0, 0, 11, 11⟩ (LayoutConfig.from_size 11 11)))
        (!(LayoutConfig.from_size 11 11).separators_collapsed &&
          (LayoutConfig.from_size 11 11).separators_visible) :=
  ⟨((render_fallback_iff ⟨0, 0, 40, 20⟩ ⟨cexModel, 0, 0⟩ ⟨0, 0, 9, 8⟩
      (LayoutConfig.from_size 9 8)).1).mpr (Or.inl (by decide)),
    (render_fallback_iff ⟨0, 0, 40, 20⟩ ⟨cexModel, 0, 0⟩ ⟨0, 0, 11, 11⟩
      (LayoutConfig.from_size 11 11)).2 (by decide)⟩

/-- The positional correction returned by `get_correction` is at most one
character cell. -/
theorem get_correction_le_one (c : LayoutConfig) (x : Nat) : (get_correction c x).2 ≤ 1 := by
  unfold get_correction
  split_ifs <;> simp

/-- Every cell width the mode classifier chooses is at least 1. -/
theorem from_size_cell_w_ge_one (w h : Nat) : 1 ≤ (LayoutConfig.from_size w h).cell_w := by
  simp only [LayoutConfig.from_size]
  split_ifs <;> omega

/-- When the mode classifier turns cell borders on, the cell width is at
least 3 (`cell_border = cell_w > 2 && cell_h > 1`). -/
theorem from_size_border_cell_w (w h : Nat) :
    (LayoutConfig.from_size w h).cell_border = true →
    3 ≤ (LayoutConfig.from_size w h).cell_w := by
  simp only [LayoutConfig.from_size]
  intro hb
  rw [Bool.and_eq_true, decide_eq_true_eq, decide_eq_true_eq] at hb
  omega

/-- Every cell height the mode classifier chooses is at least 1. -/
theorem from_size_cell_h_ge_one (w h : Nat) : 1 ≤ (LayoutConfig.from_size w h).cell_h := by
  simp only [LayoutConfig.from_size]
  split_ifs <;> omega

/-- The horizontal per-cell stride is positive whenever the configuration has
`cell_w ≥ 1` and borders imply `cell_w ≥ 3` (both hold for every classifier
output). -/
theorem cell_stride_x_pos_of (c : LayoutConfig) (h1 : 1 ≤ c.cell_w)
    (h2 : c.cell_border = true → 3 ≤ c.cell_w) : 1 ≤ cell_stride_x c := by
  unfold cell_stride_x
  by_cases hbo : c.cell_border = true
  · have h3 := h2 hbo
    simp only [hbo, Bool.true_and]
    split_ifs <;> omega
  · have hbo' : c.cell_border = false := Bool.eq_false_iff.mpr hbo
    simp only [hbo', Bool.false_and, Bool.false_eq_true, if_false]
    split_ifs <;> omega

/-- The vertical per-cell stride is positive whenever `cell_h ≥ 1`. -/
theorem cell_stride_y_pos_of (c : LayoutConfig) (h1 : 1 ≤ c.cell_h) :
    1 ≤ cell_stride_y c := by
  unfold cell_stride_y
  split_ifs <;> omega

/-- C10 (counterexample): at the grid area 11×11 at origin `(0, 0)` —
separators visible, not collapsed, no outer border, footprint 11×9 fits —
the `cell_x` computation for column 0 DOES underflow: the subtracted
correction is 1 while the accumulated offset is 0. -/
theorem correction_underflow_at_11x11 :
    (LayoutConfig.from_size 11 11).grid_width ≤ 11 ∧
    (LayoutConfig.from_size 11 11).grid_height ≤ 11 ∧
    (LayoutConfig.from_size 11 11).separators_visible = true ∧
    (LayoutConfig.from_size 11 11).separators_collapsed = false ∧
    (LayoutConfig.from_size 11 11).outer_border = false ∧
    ¬x_offset_ok (LayoutConfig.from_size 11 11)
      (innerRect ⟨0, 0, 11, 11⟩ (LayoutConfig.from_size 11 11)) 0 ∧
    cellXPos (innerRect ⟨0, 0, 11, 11⟩ (LayoutConfig.from_size 11 11))
      (LayoutConfig.from_size 11 11) 0 = 65535 := by
  refine ⟨by decide, by decide, by decide, by decide, by decide, by decide, by decide⟩

/-- C10 (amended): for every classifier output the per-cell position
subtraction cannot underflow at any index `≥ 1` (the accumulated offset
already covers the at-most-one-cell correction), and at index 0 it cannot
underflow provided the centered origin is at least 1 in that axis or the
correction at index 0 is zero.  The extra proviso is necessary: the 11×11
counterexample above underflows at column 0. -/
theorem correction_bounded :
    (∀ (w h : Nat) (area : Rect) (x : Nat), x < 9 →
        (1 ≤ x ∨ 1 ≤ (innerRect area (LayoutConfig.from_size w h)).x ∨
          (get_correction (LayoutConfig.from_size w h) x).2 = 0) →
        x_offset_ok (LayoutConfig.from_size w h)
          (innerRect area (LayoutConfig.from_size w h)) x) ∧
    (∀ (w h : Nat) (area : Rect) (y : Nat), y < 9 →
        (1 ≤ y ∨ 1 ≤ (innerRect area (LayoutConfig.from_size w h)).y ∨
          (get_correction (LayoutConfig.from_size w h) y).2 = 0) →
        y_offset_ok (LayoutConfig.from_size w h)
          (innerRect area (LayoutConfig.from_size w h)) y) := by
  constructor
  · intro w h area x _ hcase
    have hcorr := get_correction_le_one (LayoutConfig.from_size w h) x
    have hstride := cell_stride_x_pos_of (LayoutConfig.from_size w h)
      (from_size_cell_w_ge_one w h) (from_size_border_cell_w w h)
    unfold x_offset_ok
    rcases hcase with hx | hi | hc
    · have hp : 1 * 1 ≤ x * cell_stride_x (LayoutConfig.from_size w h) :=
        Nat.mul_le_mul hx hstride
      omega
    · omega
    · omega
  · intro w h area y _ hcase
    have hcorr := get_correction_le_one (LayoutConfig.from_size w h) y
    have hstride := cell_stride_y_pos_of (LayoutConfig.from_size w h)
      (from_size_cell_h_ge_one w h)
    unfold y_offset_ok
    rcases hcase with hy | hi | hc
    · have hp : 1 * 1 ≤ y * cell_stride_y (LayoutConfig.from_size w h) :=
        Nat.mul_le_mul hy hstride
      omega
    · omega
    · omega

/-- Witness for C10 (amended) at concrete inputs: on the same 11×11 area,
column 3 and row 0 satisfy the no-underflow bound (row 0 because the centered
vertical origin is 1). -/
theorem correction_bounded_witness :
    x_offset_ok (LayoutConfig.from_size 11 11)
      (innerRect ⟨0, 0, 11, 11⟩ (LayoutConfig.from_size 11 11)) 3 ∧
    y_offset_ok (LayoutConfig.from_size 11 11)
      (innerRect ⟨0, 0, 11, 11⟩ (LayoutConfig.from_size 11 11)) 0 :=
  ⟨correction_bounded.1 11 11 ⟨0, 0, 11, 11⟩ 3 (by decide) (Or.inl (by decide)),
    correction_bounded.2 11 11 ⟨0, 0, 11, 11⟩ 0 (by decide) (Or.inr (Or.inl (by decide)))⟩

end SudokuTUI
